import Mathlib

/-!
Verification of the klipper_tmc_autotune core: a shallow embedding of
`motor_constants.py` and `autotune_tmc.py`.

Python floats are modelled as exact rationals (ℚ); the real constant
`math.pi` forces the two pwm-gradient formulas and `maxpwmrps` into ℝ.
Machine integers are ℤ.  Fallible construction returns `Except`.
Register application (`_set_driver_field`, a placeholder whose body is
`pass`) is modelled by its call trace: every method that applies fields
returns the unchanged-or-updated object state together with the ordered
list of (field, value) pairs it passed to the sink.
-/

/-- Errors that can abort `MotorConstants.__init__`: a named config error
from a typed getter (`config.getfloat`/`getint` with `minval`), or a
Python `ZeroDivisionError` raised by evaluating `T / (2.0 * I)`. -/
inductive InitError where
  | configError (field : String)
  | zeroDivision
deriving DecidableEq, Repr

/-- The state built by `MotorConstants.__init__`: physical constants read
from config plus the derived back-EMF constant `cbemf`. -/
structure MotorSpec where
  R : ℚ
  L : ℚ
  T : ℚ
  S : ℤ
  I : ℚ
  cbemf : ℚ
deriving DecidableEq, Repr

/-- `MotorConstants.__init__` (motor_constants.py lines 4-12): each typed
getter is called with `minval=0`, which raises a named config error when
the value is strictly below the bound; afterwards
`self.cbemf = self.T / (2.0 * self.I)` is evaluated, which in Python
raises `ZeroDivisionError` when `2.0 * I == 0`. -/
def motorConstantsInit (R L T : ℚ) (S : ℤ) (I : ℚ) : Except InitError MotorSpec :=
  if R < 0 then .error (.configError ("resistance"))
  else if L < 0 then .error (.configError ("inductance"))
  else if T < 0 then .error (.configError ("holding_torque"))
  else if S < 0 then .error (.configError ("steps_per_revolution"))
  else if I < 0 then .error (.configError ("max_current"))
  else if 2 * I = 0 then .error .zeroDivision
  else .ok ⟨R, L, T, S, I, T / (2 * I)⟩

/-- `MotorConstants.pwmofs` (motor_constants.py lines 21-23):
`I = current if current > 0.0 else self.I * 0.8`, then
`int(math.ceil(374 * self.R * I / volts))`. -/
def pwmofs (m : MotorSpec) (volts current : ℚ) : ℤ :=
  let I := if current > 0 then current else m.I * (8/10)
  ⌈374 * m.R * I / volts⌉

/-- `MotorConstants.pwmgrad` (motor_constants.py lines 15-18):
`steps` defaults to `self.S` when 0, then
`int(math.ceil(self.cbemf * 2 * math.pi * fclk * 1.46 / (volts * 256.0 * steps)))`. -/
noncomputable def MotorConstants_pwmgrad (m : MotorSpec) (fclk : ℚ) (steps : ℤ) (volts : ℚ) : ℤ :=
  let st : ℤ := if steps = 0 then m.S else steps
  ⌈(m.cbemf : ℝ) * 2 * Real.pi * (fclk : ℝ) * (146/100) / ((volts : ℝ) * 256 * (st : ℝ))⌉

/-- `AutotuneTMC.pwmgrad` (autotune_tmc.py lines 212-216): same formula with
`smooth_factor = 1.3`; `self.cbemf` and `self.S` are the attributes the
method dereferences, passed here as parameters. -/
noncomputable def AutotuneTMC_pwmgrad (cbemf : ℚ) (S : ℤ) (fclk : ℚ) (steps : ℤ) (volts : ℚ) : ℤ :=
  let st : ℤ := if steps = 0 then S else steps
  ⌈(cbemf : ℝ) * 2 * Real.pi * (fclk : ℝ) * (13/10) / ((volts : ℝ) * 256 * (st : ℝ))⌉

/-- The shared shape of the two pwm-gradient sites, with the smoothing
constant abstracted out. -/
noncomputable def pwmgradGeneric (c : ℝ) (cbemf : ℚ) (S : ℤ) (fclk : ℚ) (steps : ℤ) (volts : ℚ) : ℤ :=
  let st : ℤ := if steps = 0 then S else steps
  ⌈(cbemf : ℝ) * 2 * Real.pi * (fclk : ℝ) * c / ((volts : ℝ) * 256 * (st : ℝ))⌉

/-- `MotorConstants.maxpwmrps` (motor_constants.py lines 26-29): after the
`steps == 0` substitution it returns
`(255 - self.pwmofs(volts, current)) / (math.pi * self.pwmgrad(fclk, steps))`;
the `pwmgrad` call passes only `fclk` and `steps`, so `volts` there takes
its default value 24.0. -/
noncomputable def maxpwmrps (m : MotorSpec) (fclk : ℚ) (steps : ℤ) (volts current : ℚ) : ℝ :=
  let st : ℤ := if steps = 0 then m.S else steps
  (255 - (pwmofs m volts current : ℝ)) / (Real.pi * (MotorConstants_pwmgrad m fclk st 24 : ℝ))

/-- The raw (pre-clamp) hysteresis value of `MotorConstants.hysteresis`
(motor_constants.py line 40):
`extra + int(math.ceil(max(0.5 + ((dcoilblank + dcoilsd) * 2 * 248 * 32 / I) / 32 - 8, -2)))`. -/
def hysteresisRaw (m : MotorSpec) (extra : ℤ) (fclk volts current : ℚ) (tbl toff : ℕ) : ℤ :=
  let I := if current > 0 then current else m.I * (8/10)
  let tblank := 16 * (3/2 : ℚ) ^ tbl / fclk
  let tsd := (12 + 32 * (toff : ℚ)) / fclk
  let dcoilblank := volts * tblank / m.L
  let dcoilsd := m.R * I * 2 * tsd / m.L
  extra + ⌈max ((1/2 : ℚ) + ((dcoilblank + dcoilsd) * 2 * 248 * 32 / I) / 32 - 8) (-2 : ℚ)⌉

/-- `MotorConstants.hysteresis` (motor_constants.py lines 32-45): clamp the
raw value to `htotal = min(raw, 14)`, `hstrt = max(min(htotal, 8), 1)`,
`hend = min(htotal - hstrt, 12)`, and return `(hstrt - 1, hend + 3)`. -/
def hysteresis (m : MotorSpec) (extra : ℤ) (fclk volts current : ℚ) (tbl toff : ℕ) : ℤ × ℤ :=
  let htotal := min (hysteresisRaw m extra fclk volts current tbl toff) 14
  let hstrt := max (min htotal 8) 1
  let hend := min (htotal - hstrt) 12
  (hstrt - 1, hend + 3)

/-- A concrete valid motor used for witnesses and counterexamples:
`motorConstantsInit 2 (3/1000) 2 200 1` succeeds and yields `cbemf = 1`. -/
def mC : MotorSpec := ⟨2, 3/1000, 2, 200, 1, 1⟩

theorem mC_init : motorConstantsInit 2 (3/1000) 2 200 1 = .ok mC := by
  unfold motorConstantsInit mC
  norm_num

/-- The `TuningGoal` string enum (autotune_tmc.py lines 62-66). -/
inductive TuningGoal where
  | AUTO
  | AUTOSWITCH
  | SILENT
  | PERFORMANCE
deriving DecidableEq, Repr

/-- `TuningGoal(tgoal)`: parsing a string into the enum; an unrecognized
string raises `ValueError`, modelled as `none`. -/
def TuningGoal.ofString : String → Option TuningGoal
  | "auto" => some .AUTO
  | "autoswitch" => some .AUTOSWITCH
  | "silent" => some .SILENT
  | "performance" => some .PERFORMANCE
  | _ => none

/-- `AUTO_PERFORMANCE_MOTORS` (autotune_tmc.py line 60). -/
def AUTO_PERFORMANCE_MOTORS : List String :=
  ["stepper_x", "stepper_y", "stepper_x1", "stepper_y1",
   "stepper_a", "stepper_b", "stepper_c"]

/-- A value passed to the driver-field sink: booleans (chopper-mode flags),
rationals (pwm frequency) or integers (coolstep thresholds). -/
inductive FieldVal where
  | b (x : Bool)
  | q (x : ℚ)
  | i (x : ℤ)
deriving DecidableEq, Repr

/-- The mutable attributes of an `AutotuneTMC` instance that the tuning
procedure and the AUTOTUNE_TMC command read or write. -/
structure TunerState where
  name : String
  tuning_goal : TuningGoal
  auto_silent : Bool
  extra_hysteresis : ℤ
  pwm_freq_target : ℚ
deriving DecidableEq, Repr

/-- `AutotuneTMC._set_driver_field` (autotune_tmc.py lines 232-234): a
placeholder sink; its observable effect is the (field, value) pair of the
call, recorded in the trace, and it mutates no state. -/
def setDriverField (s : TunerState) (field : String) (value : FieldVal) :
    TunerState × List (String × FieldVal) :=
  (s, [(field, value)])

/-- `AutotuneTMC.set_stealthchop_mode` (autotune_tmc.py lines 218-224). -/
def set_stealthchop_mode (s : TunerState) (goal : TuningGoal) :
    TunerState × List (String × FieldVal) :=
  if goal = .SILENT then
    let (s1, t1) := setDriverField s ("en_pwm_mode") (.b true)
    let (s2, t2) := setDriverField s1 ("en_spreadcycle") (.b false)
    (s2, t1 ++ t2)
  else
    let (s1, t1) := setDriverField s ("en_pwm_mode") (.b false)
    let (s2, t2) := setDriverField s1 ("en_spreadcycle") (.b true)
    (s2, t1 ++ t2)

/-- `AutotuneTMC.adjust_pwm_freq` (autotune_tmc.py lines 205-210). -/
def adjust_pwm_freq (s : TunerState) : TunerState × List (String × FieldVal) :=
  let pwm_freq : ℚ :=
    if s.tuning_goal = .SILENT then max 15000 (min s.pwm_freq_target 20000)
    else s.pwm_freq_target
  setDriverField s ("pwm_freq") (.q pwm_freq)

/-- `AutotuneTMC.smooth_acceleration` (autotune_tmc.py lines 226-230). -/
def smooth_acceleration (s : TunerState) : TunerState × List (String × FieldVal) :=
  let (s1, t1) := setDriverField s ("semax") (.i 3)
  let (s2, t2) := setDriverField s1 ("semin") (.i 1)
  let (s3, t3) := setDriverField s2 ("seup") (.i 4)
  let (s4, t4) := setDriverField s3 ("sedn") (.i 2)
  (s4, t1 ++ t2 ++ t3 ++ t4)

/-- `AutotuneTMC.tune_driver` (autotune_tmc.py lines 191-203): only the
SILENT and PERFORMANCE branches exist; any other goal falls through with
no field applied. -/
def tune_driver (s : TunerState) : TunerState × List (String × FieldVal) :=
  if s.tuning_goal = .SILENT then
    let (s1, t1) := set_stealthchop_mode s s.tuning_goal
    let (s2, t2) := adjust_pwm_freq s1
    let (s3, t3) := smooth_acceleration s2
    (s3, t1 ++ t2 ++ t3)
  else if s.tuning_goal = .PERFORMANCE then
    let (s1, t1) := set_stealthchop_mode s s.tuning_goal
    let (s2, t2) := adjust_pwm_freq s1
    let (s3, t3) := smooth_acceleration s2
    (s3, t1 ++ t2 ++ t3)
  else
    (s, [])

/-- The goal-resolution part of `AutotuneTMC.handle_connect`
(autotune_tmc.py lines 157-159): only when the stored goal is AUTO,
`auto_silent = name not in AUTO_PERFORMANCE_MOTORS and motor.T > 0.3` and
the goal becomes SILENT or PERFORMANCE accordingly. -/
def handle_connect (s : TunerState) (motorT : ℚ) : TunerState :=
  if s.tuning_goal = .AUTO then
    let autoSilent : Bool :=
      decide (s.name ∉ AUTO_PERFORMANCE_MOTORS ∧ (3/10 : ℚ) < motorT)
    { s with auto_silent := autoSilent,
             tuning_goal := if autoSilent then .SILENT else .PERFORMANCE }
  else s

/-- `AutotuneTMC.cmd_AUTOTUNE_TMC` (autotune_tmc.py lines 175-189):
`tgoal = gcmd.get('TUNING_GOAL', TUNING_GOAL).lower()` (module default
`TUNING_GOAL = 'auto'`, so `tgoal` is never `None` and the
`if tgoal is not None` guard always passes; the `.lower()` normalization is
modelled by taking `tuningGoalArg` already lowercased); an unparseable goal
string is swallowed (`except ValueError: pass`); a stored AUTO goal is
re-resolved from the cached `auto_silent`; the EXTRA_HYSTERESIS integer is
stored whenever `extra_hysteresis >= 0 or extra_hysteresis <= 8`; finally
`tune_driver` runs. -/
def cmd_AUTOTUNE_TMC (s : TunerState) (tuningGoalArg : Option String)
    (extraHysteresisArg : Option ℤ) : TunerState × List (String × FieldVal) :=
  let tgoal := tuningGoalArg.getD ("auto")
  let s1 :=
    match TuningGoal.ofString tgoal with
    | some g => { s with tuning_goal := g }
    | none => s
  let s2 :=
    if s1.tuning_goal = .AUTO then
      { s1 with tuning_goal := if s1.auto_silent then .SILENT else .PERFORMANCE }
    else s1
  let s3 :=
    match extraHysteresisArg with
    | some extra =>
        if extra ≥ 0 ∨ extra ≤ 8 then { s2 with extra_hysteresis := extra } else s2
    | none => s2
  tune_driver s3

/-- Helper: `tune_driver` never mutates the tuner state. -/
theorem tune_driver_fst (s : TunerState) : (tune_driver s).1 = s := by
  unfold tune_driver set_stealthchop_mode adjust_pwm_freq smooth_acceleration setDriverField
  rcases h : s.tuning_goal <;> simp [h]

/-- C1 (code bug evidence): an AUTOTUNE_TMC invocation with
EXTRA_HYSTERESIS=100 — far outside [0,8] — overwrites the previously valid
stored value 0 with 100, because the guard
`extra_hysteresis >= 0 or extra_hysteresis <= 8` uses `or` and is vacuous. -/
theorem C1_out_of_range_extra_hysteresis_stored :
    ((cmd_AUTOTUNE_TMC (⟨"stepper_z", .SILENT, false, 0, 55000⟩ : TunerState)
        (some ("silent")) (some 100)).1).extra_hysteresis = 100 ∧
    ¬ ((100 : ℤ) ≤ 8) := by
  constructor
  · rfl
  · decide

/-- C2 (code bug evidence): with `max_current = 0` every `minval=0` getter
check passes (0 is not below the bound), so construction reaches the
derived-constant division `T / (2.0 * I)` and fails with a
`ZeroDivisionError` — an arithmetic fault, not a named domain error. -/
theorem C2_zero_current_reaches_division :
    motorConstantsInit 2 (3/1000) (1/2) 200 0 = .error .zeroDivision ∧
    ∀ f, motorConstantsInit 2 (3/1000) (1/2) 200 0 ≠ .error (.configError f) := by
  constructor
  · unfold motorConstantsInit
    norm_num
  · intro f
    unfold motorConstantsInit
    norm_num
    exact fun h => InitError.noConfusion h

/-- C4 counterexample: with the stored goal AUTOSWITCH the tuning procedure
applies no field at all — in particular no chopper-mode flag — refuting the
claim that it performs the same chopper-mode selection as the
SILENT/PERFORMANCE paths. -/
theorem C4_autoswitch_counterexample :
    (tune_driver (⟨"stepper_z", .AUTOSWITCH, false, 0, 55000⟩ : TunerState)).2 = [] ∧
    List.lookup ("en_pwm_mode")
      ((tune_driver (⟨"stepper_z", .AUTOSWITCH, false, 0, 55000⟩ : TunerState)).2) = none := by
  constructor
  · rfl
  · rfl

/-- C4 (amended): when the stored tuning goal is AUTOSWITCH, `tune_driver`
falls through both terminal-goal branches and applies no fields at all,
leaving the state unchanged. -/
theorem C4_autoswitch_applies_no_fields (s : TunerState)
    (h : s.tuning_goal = .AUTOSWITCH) : tune_driver s = (s, []) := by
  unfold tune_driver
  simp [h]

/-- C4 witness: the amended statement evaluated on a concrete state. -/
theorem C4_autoswitch_applies_no_fields_witness :
    (⟨"stepper_y", .AUTOSWITCH, false, 2, 18000⟩ : TunerState).tuning_goal = .AUTOSWITCH ∧
    tune_driver (⟨"stepper_y", .AUTOSWITCH, false, 2, 18000⟩ : TunerState)
      = ((⟨"stepper_y", .AUTOSWITCH, false, 2, 18000⟩ : TunerState), []) :=
  ⟨rfl, C4_autoswitch_applies_no_fields _ rfl⟩

/-- C5: at connect time a stored AUTO goal resolves to SILENT exactly when
the axis name is not in AUTO_PERFORMANCE_MOTORS and the motor torque
exceeds 0.3; otherwise it resolves to PERFORMANCE; stored SILENT and
PERFORMANCE goals pass through unchanged. -/
theorem C5_auto_goal_resolution (s : TunerState) (T : ℚ) :
    (s.tuning_goal = .AUTO →
      (((handle_connect s T).tuning_goal = .SILENT) ↔
        (s.name ∉ AUTO_PERFORMANCE_MOTORS ∧ (3/10 : ℚ) < T)) ∧
      (((handle_connect s T).tuning_goal = .SILENT) ∨
        ((handle_connect s T).tuning_goal = .PERFORMANCE))) ∧
    (s.tuning_goal = .SILENT → handle_connect s T = s) ∧
    (s.tuning_goal = .PERFORMANCE → handle_connect s T = s) := by
  refine ⟨?_, ?_, ?_⟩ <;> intro h
  · constructor
    · by_cases hp : s.name ∉ AUTO_PERFORMANCE_MOTORS ∧ (3/10 : ℚ) < T <;>
        simp [handle_connect, h, hp]
    · by_cases hp : s.name ∉ AUTO_PERFORMANCE_MOTORS ∧ (3/10 : ℚ) < T <;>
        simp [handle_connect, h, hp]
  · simp [handle_connect, h]
  · simp [handle_connect, h]

/-- C5 witness: axis stepper_z (not performance-preferred) with torque
0.5 N·m and goal AUTO resolves to SILENT. -/
theorem C5_auto_goal_resolution_witness :
    (⟨"stepper_z", .AUTO, false, 0, 55000⟩ : TunerState).tuning_goal = .AUTO ∧
    (handle_connect (⟨"stepper_z", .AUTO, false, 0, 55000⟩ : TunerState) (1/2)).tuning_goal
      = .SILENT :=
  ⟨rfl,
   ((C5_auto_goal_resolution (⟨"stepper_z", .AUTO, false, 0, 55000⟩ : TunerState) (1/2)).1
      rfl).1.mpr ⟨by decide, by norm_num⟩⟩

/-- C6: the tuning procedure mutates no state it reads, so running it twice
in succession from any fixed state emits the identical ordered sequence of
applied (field, value) pairs in both runs. -/
theorem C6_tune_driver_idempotent (s : TunerState) :
    (tune_driver s).1 = s ∧
    (tune_driver ((tune_driver s).1)).2 = (tune_driver s).2 := by
  refine ⟨tune_driver_fst s, ?_⟩
  rw [tune_driver_fst]

/-- C8: every run of the tuning procedure with resolved goal SILENT applies
`pwm_freq = max(15e3, min(target, 20e3))`; with resolved goal PERFORMANCE it
applies the target unmodified. -/
theorem C8_pwm_freq_clamp (s : TunerState) :
    (s.tuning_goal = .SILENT →
      List.lookup ("pwm_freq") ((tune_driver s).2)
        = some (.q (max 15000 (min s.pwm_freq_target 20000)))) ∧
    (s.tuning_goal = .PERFORMANCE →
      List.lookup ("pwm_freq") ((tune_driver s).2) = some (.q s.pwm_freq_target)) := by
  constructor <;> intro h <;>
    simp [tune_driver, h, set_stealthchop_mode, adjust_pwm_freq, smooth_acceleration,
      setDriverField, List.lookup]

/-- C8 witness: under SILENT a 55 kHz target is clamped to 20 kHz. -/
theorem C8_pwm_freq_clamp_witness :
    List.lookup ("pwm_freq")
      ((tune_driver (⟨"stepper_z", .SILENT, false, 0, 55000⟩ : TunerState)).2)
      = some (.q 20000) := by
  have h := (C8_pwm_freq_clamp (⟨"stepper_z", .SILENT, false, 0, 55000⟩ : TunerState)).1 rfl
  simpa using h

/-- C10: invoking AUTOTUNE_TMC without a TUNING_GOAL argument defaults the
string to 'auto', so whatever goal was stored before, the stored goal after
the command is the cached AUTO resolution: SILENT when `auto_silent` was
set at connect time, else PERFORMANCE. -/
theorem C10_missing_goal_resets (s : TunerState) (extraArg : Option ℤ) :
    ((cmd_AUTOTUNE_TMC s none extraArg).1).tuning_goal
      = (if s.auto_silent then .SILENT else .PERFORMANCE) := by
  have hparse : TuningGoal.ofString ("auto") = some .AUTO := rfl
  rcases extraArg with _ | e
  · simp [cmd_AUTOTUNE_TMC, hparse, tune_driver_fst]
  · have he : e ≥ 0 ∨ e ≤ 8 := by omega
    simp [cmd_AUTOTUNE_TMC, hparse, he, tune_driver_fst]

/-- C7: under valid motor and chopper parameters the hysteresis pair
satisfies the post-offset bounds hstart ∈ [0,7] and hend ≤ 11, the raw
pre-clamp value is strictly monotone in `extra` on [0,8], and the clamped
total `htotal = min(raw, 14)` saturates at 14. -/
theorem C7_hysteresis_bounds_monotone (m : MotorSpec) (extra : ℤ)
    (fclk volts current : ℚ) (tbl toff : ℕ)
    (h : 0 < m.R ∧ 0 < m.L ∧ 0 < m.I ∧ 0 ≤ extra ∧ extra ≤ 8 ∧ tbl ≤ 3 ∧
      toff ≤ 15 ∧ 0 < fclk ∧ 0 < volts ∧ 0 ≤ current) :
    (0 ≤ (hysteresis m extra fclk volts current tbl toff).1 ∧
      (hysteresis m extra fclk volts current tbl toff).1 ≤ 7 ∧
      (hysteresis m extra fclk volts current tbl toff).2 ≤ 11) ∧
    (∀ e1 e2 : ℤ, 0 ≤ e1 → e1 < e2 → e2 ≤ 8 →
      hysteresisRaw m e1 fclk volts current tbl toff
        < hysteresisRaw m e2 fclk volts current tbl toff) ∧
    min (hysteresisRaw m extra fclk volts current tbl toff) 14 ≤ 14 := by
  refine ⟨?_, ?_, min_le_right _ _⟩
  · simp only [hysteresis]
    omega
  · intro e1 e2 h1 h2 h3
    simp only [hysteresisRaw]
    omega

/-- C7 witness: the bounds evaluated on a concrete valid input. -/
theorem C7_hysteresis_bounds_monotone_witness :
    (0 < mC.R ∧ 0 < mC.L ∧ 0 < mC.I ∧ 0 ≤ (2:ℤ) ∧ (2:ℤ) ≤ 8 ∧ (1:ℕ) ≤ 3 ∧
      (0:ℕ) ≤ 15 ∧ 0 < (12288000:ℚ) ∧ 0 < (24:ℚ) ∧ 0 ≤ (1:ℚ)) ∧
    (0 ≤ (hysteresis mC 2 12288000 24 1 1 0).1 ∧
      (hysteresis mC 2 12288000 24 1 1 0).1 ≤ 7 ∧
      (hysteresis mC 2 12288000 24 1 1 0).2 ≤ 11) :=
  ⟨by norm_num [mC],
   (C7_hysteresis_bounds_monotone mC 2 12288000 24 1 1 0 (by norm_num [mC])).1⟩

/-- Helper: a ceiling strictly increases across a gap of at least one. -/
theorem ceil_lt_ceil_of_add_one_le (a b : ℝ) (h : a + 1 ≤ b) : ⌈a⌉ < ⌈b⌉ := by
  have h1 : ⌈a + (1:ℝ)⌉ ≤ ⌈b⌉ := Int.ceil_le_ceil h
  rw [Int.ceil_add_one] at h1
  omega

/-- Helper: the model pwm gradient of `mC` at 12288000 Hz, 200 steps, 24 V. -/
theorem pwmgrad_mC_24 :
    MotorConstants_pwmgrad mC 12288000 200 24 = ⌈(146/5 : ℝ) * Real.pi⌉ := by
  unfold MotorConstants_pwmgrad
  norm_num [mC]
  congr 1
  ring

/-- Helper: the model pwm gradient of `mC` at 12288000 Hz, 200 steps, 12 V. -/
theorem pwmgrad_mC_12 :
    MotorConstants_pwmgrad mC 12288000 200 12 = ⌈(292/5 : ℝ) * Real.pi⌉ := by
  unfold MotorConstants_pwmgrad
  norm_num [mC]
  congr 1
  ring

/-- Helper: the engine pwm gradient at the same motor data and input. -/
theorem pwmgrad_engine_concrete :
    AutotuneTMC_pwmgrad 1 200 12288000 200 24 = ⌈(26 : ℝ) * Real.pi⌉ := by
  unfold AutotuneTMC_pwmgrad
  norm_num
  congr 1
  ring

/-- Helper: `pwmofs` of `mC` at 12 V, 1 A. -/
theorem pwmofs_mC_12_1 : pwmofs mC 12 1 = 63 := by
  unfold pwmofs
  norm_num [mC]
  rw [Int.ceil_eq_iff] <;> norm_num

/-- Helper: quotients of 192 by π times distinct positive integers differ. -/
theorem div_pi_ne_of_lt (a b : ℤ) (ha : 0 < a) (hab : a < b) :
    (192 : ℝ) / (Real.pi * (a : ℝ)) ≠ (192 : ℝ) / (Real.pi * (b : ℝ)) := by
  have hpi := Real.pi_pos
  have ha' : (0:ℝ) < Real.pi * (a : ℝ) := by
    have : (0:ℝ) < (a : ℝ) := by exact_mod_cast ha
    positivity
  have hb' : Real.pi * (a : ℝ) < Real.pi * (b : ℝ) := by
    apply mul_lt_mul_of_pos_left _ hpi
    exact_mod_cast hab
  have hlt : (192 : ℝ) / (Real.pi * (b : ℝ)) < 192 / (Real.pi * (a : ℝ)) :=
    div_lt_div_of_pos_left (by norm_num) ha' hb'
  exact ne_of_gt hlt

/-- C3 counterexample: at `mC`, fclk 12288000, steps 200, volts 12,
current 1, `maxpwmrps` differs from the formula with the gradient evaluated
at the same 12 V, because the code evaluates the gradient at its default
24 V. -/
theorem C3_counterexample :
    maxpwmrps mC 12288000 200 12 1
      ≠ (255 - (pwmofs mC 12 1 : ℝ))
        / (Real.pi * ((MotorConstants_pwmgrad mC 12288000 200 12 : ℤ) : ℝ)) := by
  have ha : (0:ℤ) < ⌈(146/5 : ℝ) * Real.pi⌉ := Int.ceil_pos.mpr (by positivity)
  have hab : ⌈(146/5 : ℝ) * Real.pi⌉ < ⌈(292/5 : ℝ) * Real.pi⌉ :=
    ceil_lt_ceil_of_add_one_le _ _ (by nlinarith [Real.pi_gt_three])
  simp only [maxpwmrps]
  rw [if_neg (by omega : ¬ (200:ℤ) = 0), pwmofs_mC_12_1, pwmgrad_mC_24, pwmgrad_mC_12]
  have h192 : ((255:ℝ) - ((63:ℤ) : ℝ)) = 192 := by norm_num
  rw [h192]
  exact div_pi_ne_of_lt _ _ ha hab

/-- C3 (amended): `maxpwmrps` equals
`(255 − pwmofs(volts, current)) / (π · pwmgrad(fclk, steps, 24))`: the
gradient term is evaluated at the default 24 V, not at the `volts`
argument given to `maxpwmrps`. -/
theorem C3_amended_grad_at_default_volts (m : MotorSpec) (fclk : ℚ)
    (steps : ℤ) (volts current : ℚ)
    (h : 0 < m.R ∧ 0 ≤ m.L ∧ 0 < m.I ∧ 0 < m.S ∧ 0 < fclk ∧ 0 < steps ∧
      0 < volts ∧ 0 ≤ current) :
    maxpwmrps m fclk steps volts current
      = (255 - (pwmofs m volts current : ℝ))
        / (Real.pi * ((MotorConstants_pwmgrad m fclk steps 24 : ℤ) : ℝ)) := by
  simp only [maxpwmrps]
  rw [if_neg (by omega : ¬ steps = 0)]

/-- C3 witness: the amended equation evaluated at a concrete valid input. -/
theorem C3_amended_grad_at_default_volts_witness :
    (0 < mC.R ∧ 0 ≤ mC.L ∧ 0 < mC.I ∧ 0 < mC.S ∧ 0 < (12288000:ℚ) ∧
      0 < (200:ℤ) ∧ 0 < (12:ℚ) ∧ 0 ≤ (1:ℚ)) ∧
    maxpwmrps mC 12288000 200 12 1
      = (255 - (pwmofs mC 12 1 : ℝ))
        / (Real.pi * ((MotorConstants_pwmgrad mC 12288000 200 24 : ℤ) : ℝ)) :=
  ⟨by norm_num [mC],
   C3_amended_grad_at_default_volts mC 12288000 200 12 1 (by norm_num [mC])⟩

/-- C9: the engine's and the standalone model's pwm-gradient sites are the
identical formula with the smoothing constant abstracted (1.3 in the
engine, 1.46 in the model), and the two sites disagree at a concrete valid
input. -/
theorem C9_smoothing_constant_divergence :
    (∀ (cbemf : ℚ) (S : ℤ) (fclk : ℚ) (steps : ℤ) (volts : ℚ),
      AutotuneTMC_pwmgrad cbemf S fclk steps volts
        = pwmgradGeneric (13/10) cbemf S fclk steps volts) ∧
    (∀ (m : MotorSpec) (fclk : ℚ) (steps : ℤ) (volts : ℚ),
      MotorConstants_pwmgrad m fclk steps volts
        = pwmgradGeneric (146/100) m.cbemf m.S fclk steps volts) ∧
    AutotuneTMC_pwmgrad 1 200 12288000 200 24
      ≠ MotorConstants_pwmgrad mC 12288000 200 24 := by
  refine ⟨fun _ _ _ _ _ => rfl, fun _ _ _ _ => rfl, ?_⟩
  rw [pwmgrad_engine_concrete, pwmgrad_mC_24]
  have hlt : ⌈(26 : ℝ) * Real.pi⌉ < ⌈(146/5 : ℝ) * Real.pi⌉ :=
    ceil_lt_ceil_of_add_one_le _ _ (by nlinarith [Real.pi_gt_three])
  omega

